import Mathlib

/-!
# Verification of `recipe_adapter.py` (UniversalRecipeAdapter)

Shallow embedding of the recipe-adaptation pipeline in `src/recipe_adapter.py`:
a Planner agent (schema-constrained output), a deterministic unit-conversion
tool, and a Stylist agent (free-text output), orchestrated by
`run_recipe_adapter_workflow`, with a deterministic mock client used when no
provider credential is available or client initialization fails.

Modelling conventions:
* Python numbers (the `float`s flowing through the tool) are modelled as `ℚ`.
* Loosely-typed Python values (the entries of `PlanningResult.conversion_list`,
  which is declared `List[Any]`) are modelled by the inductive type `PyVal`.
* Python exceptions raised by the workflow body (`TypeError`, `ValueError`,
  `KeyError`, `AttributeError`) are modelled with `Except PyError`.
* `print` output is observable behaviour: the final recipe draft that the
  workflow prints at its DONE banner is exposed as the workflow's result, and
  the activation lines printed by tool/agent invocations are exposed as an
  event trace.
-/

/-- A dynamically-typed Python value, as needed for the loosely-typed
`conversion_list: List[Any]` entries and the values stored in them. -/
inductive PyVal where
  | none
  | bool (b : Bool)
  | num (q : ℚ)
  | str (s : String)
  | list (xs : List PyVal)
  | dict (entries : List (String × PyVal))

/-- Python exceptions that the workflow body can raise. -/
inductive PyError where
  | typeError
  | valueError
  | keyError
  | attributeError
deriving DecidableEq, Repr

/-- First-match lookup in an association list modelling a Python `dict`
with string keys (a runtime Python dict has unique keys, so first-match
agrees with dict semantics). -/
def dictLookup (l : List (String × PyVal)) (k : String) : Option PyVal :=
  match l with
  | [] => Option.none
  | (k', v) :: rest => if k' = k then some v else dictLookup rest k

/-- `needle` occurs as a contiguous segment of `haystack`. -/
def subOccurs (needle : List Char) : List Char → Bool
  | [] => needle.isEmpty
  | c :: rest => needle.isPrefixOf (c :: rest) || subOccurs needle rest

/-- Python `needle in haystack` for two strings: substring containment. -/
def strContainsSub (haystack needle : String) : Bool :=
  subOccurs needle.data haystack.data

/-- Python `s.lower()`, on the ASCII strings the program manipulates. -/
def pyLower (s : String) : String :=
  ⟨s.data.map Char.toLower⟩

/-- Python `key in conv` where `key` is a string: key membership for dicts,
substring test for strings, element equality for lists, and `TypeError`
("argument not iterable") for `None`, booleans and numbers. -/
def pyContains (conv : PyVal) (key : String) : Except PyError Bool :=
  match conv with
  | .dict l => .ok (dictLookup l key).isSome
  | .str s => .ok (strContainsSub s key)
  | .list xs => .ok (xs.any (fun v => match v with | .str s => s = key | _ => false))
  | _ => .error .typeError

/-- Python `conv[key]` where `key` is a string: dict lookup (`KeyError` when
absent); `TypeError` for strings and lists (whose indices must be integers)
and for non-subscriptable values. -/
def pyGetItem (conv : PyVal) (key : String) : Except PyError PyVal :=
  match conv with
  | .dict l =>
    match dictLookup l key with
    | some v => .ok v
    | Option.none => .error .keyError
  | _ => .error .typeError

/-- Value of a list of decimal digits. -/
def digitsToNat (cs : List Char) : Nat :=
  cs.foldl (fun acc c => acc * 10 + (c.toNat - 48)) 0

/-- Split a character list at the first decimal point. -/
def splitAtDot : List Char → (List Char × List Char)
  | [] => ([], [])
  | c :: rest =>
    if c = '.' then ([], rest)
    else
      let (i, f) := splitAtDot rest
      (c :: i, f)

/-- A minimal model of Python decimal-literal parsing, enough to decide
`float(s)` for simple strings: optional sign, then digits with at most one
dot, at least one digit overall. -/
def parsePyFloat (s : String) : Option ℚ :=
  let sign : ℚ := if s.data.head? = some '-' then -1 else 1
  let core :=
    match s.data with
    | c :: rest => if c = '-' ∨ c = '+' then rest else s.data
    | [] => []
  if core.contains '.' then
    let (intPart, fracPart) := splitAtDot core
    if (intPart ++ fracPart) ≠ [] ∧ (intPart ++ fracPart).all Char.isDigit ∧
        ¬ fracPart.contains '.' then
      some (sign * (digitsToNat (intPart ++ fracPart) : ℚ) / ((10 : ℚ) ^ fracPart.length))
    else Option.none
  else
    if core ≠ [] ∧ core.all Char.isDigit then
      some (sign * (digitsToNat core : ℚ))
    else Option.none

/-- Python `float(v)`: numbers pass through, booleans coerce to 0/1,
strings are parsed (`ValueError` when unparsable), everything else is a
`TypeError`. -/
def pyFloat (v : PyVal) : Except PyError ℚ :=
  match v with
  | .num q => .ok q
  | .bool b => .ok (if b then 1 else 0)
  | .str s =>
    match parsePyFloat s with
    | some q => .ok q
    | Option.none => .error .valueError
  | _ => .error .typeError

/-- Python `str(v)` for the values the workflow renders into prompt text.
Rational numbers are printed with a trailing `.0` when integral, mirroring
Python float repr on the values the pipeline produces; containers are
rendered coarsely (their exact repr is never load-bearing). -/
def pyStr (v : PyVal) : String :=
  match v with
  | .none => "None"
  | .bool b => if b then "True" else "False"
  | .num q => if q.den = 1 then toString q.num ++ ".0" else toString q
  | .str s => s
  | .list _ => "[...]"
  | .dict _ => "\x7b...\x7d"

/-- `Substitution` (src lines 9-13): pydantic model with three `str` fields.
The source declares no non-emptiness constraint and does not freeze the
model. -/
structure Substitution where
  original_ingredient : String
  substitute : String
  reason : String
deriving DecidableEq, Repr

/-- `PlanningResult` (src lines 15-19): `conversion_list: List[Any]` and
`substitution_map: List[Substitution]`. -/
structure PlanningResult where
  conversion_list : List PyVal
  substitution_map : List Substitution

/-- `PlanningResult.mock_data` (src lines 21-32). -/
def PlanningResult.mock_data : PlanningResult :=
  { substitution_map := [
      { original_ingredient := "Beef chuck", substitute := "Firm Tofu",
        reason := "Vegetarian protein swap." },
      { original_ingredient := "Sour cream", substitute := "Full-fat Coconut Milk",
        reason := "Dairy-free creamy base." }],
    conversion_list := [
      .dict [("amount", .num 2), ("unit", .str "cups"), ("to_unit", .str "grams")]] }

/-- `unit_converter_tool` (src lines 84-89): multiply by 120.0 when the
lower-cased unit is `"cups"` or `"cup"`, otherwise return the amount
unchanged. -/
def unit_converter_tool (amount : ℚ) (unit : String) : ℚ :=
  if pyLower unit ∈ ["cups", "cup"] then amount * 120 else amount

/-- Schema-validation failure, as pydantic raises on a model that does not
match its declared fields (spec §4.1: `SchemaValidationError`). -/
inductive SchemaErr where
  | missingField (name : String)
  | wrongType (name : String)
  | notAnObject
deriving DecidableEq, Repr

/-- pydantic validation of a `Substitution` against the schema declared at
src lines 9-13: a mapping with the three declared keys, each bound to a
string. No further constraint is declared in the source (in particular, no
non-emptiness constraint); extra keys are ignored (pydantic default). -/
def Substitution.validate (v : PyVal) : Except SchemaErr Substitution :=
  match v with
  | .dict l =>
    match dictLookup l "original_ingredient" with
    | Option.none => .error (.missingField "original_ingredient")
    | some ov =>
      match ov with
      | .str o =>
        match dictLookup l "substitute" with
        | Option.none => .error (.missingField "substitute")
        | some sv =>
          match sv with
          | .str s =>
            match dictLookup l "reason" with
            | Option.none => .error (.missingField "reason")
            | some rv =>
              match rv with
              | .str r => .ok { original_ingredient := o, substitute := s, reason := r }
              | _ => .error (.wrongType "reason")
          | _ => .error (.wrongType "substitute")
      | _ => .error (.wrongType "original_ingredient")
  | _ => .error .notAnObject

/-- Validate a list of raw values as `substitution_map` entries. -/
def validateSubList (vs : List PyVal) : Except SchemaErr (List Substitution) :=
  match vs with
  | [] => .ok []
  | v :: rest =>
    match Substitution.validate v with
    | .error e => .error e
    | .ok s =>
      match validateSubList rest with
      | .error e => .error e
      | .ok ss => .ok (s :: ss)

/-- pydantic validation of a `PlanningResult` against the schema declared at
src lines 15-19: `conversion_list` is `List[Any]` (any list, elements kept
as-is) and `substitution_map` is `List[Substitution]`. -/
def PlanningResult.validate (v : PyVal) : Except SchemaErr PlanningResult :=
  match v with
  | .dict l =>
    match dictLookup l "conversion_list" with
    | Option.none => .error (.missingField "conversion_list")
    | some cv =>
      match cv with
      | .list convs =>
        match dictLookup l "substitution_map" with
        | Option.none => .error (.missingField "substitution_map")
        | some sv =>
          match sv with
          | .list subsRaw =>
            match validateSubList subsRaw with
            | .error e => .error e
            | .ok subs => .ok { conversion_list := convs, substitution_map := subs }
          | _ => .error (.wrongType "substitution_map")
      | _ => .error (.wrongType "conversion_list")
  | _ => .error .notAnObject

/-- `model_dump` of a `Substitution` (the serialization the Stylist prompt
and the round-trip property use). -/
def Substitution.serialize (s : Substitution) : PyVal :=
  .dict [("original_ingredient", .str s.original_ingredient),
         ("substitute", .str s.substitute),
         ("reason", .str s.reason)]

/-- `model_dump` of a `PlanningResult`. -/
def PlanningResult.serialize (p : PlanningResult) : PyVal :=
  .dict [("conversion_list", .list p.conversion_list),
         ("substitution_map", .list (p.substitution_map.map Substitution.serialize))]

/-! ## Agent client, mock variant and client initialization -/

/-- Errors an agent invocation can surface (spec §7): schema validation of
the provider's structured output, or a transport/provider failure. -/
inductive AgentErr where
  | schemaValidationError
  | providerCallError
deriving DecidableEq, Repr

/-- The response object the client contract exposes (spec §6): raw text,
plus a parsed `PlanningResult` when a schema was requested. Mirrors
`MockResponse` (src lines 36-40) and the live response shape. -/
structure Response where
  text : String
  parsed : Option PlanningResult

/-- An agent client: given the full contents text and whether a response
schema was requested, return a response or fail. The live variant is an
arbitrary function of this type; the mock variant is `mockClient`. -/
def Client : Type :=
  String → Bool → Except AgentErr Response

/-- `MockModels.generate_content` (src lines 44-50): with a schema in the
config, a fixed structured plan; otherwise the fixed final-recipe text.
The mock never fails. -/
def mockGenerateContent (hasSchema : Bool) : Response :=
  if hasSchema then
    { text := "[MOCK OUTPUT: Structured Plan Generated]",
      parsed := some PlanningResult.mock_data }
  else
    { text := "[MOCK OUTPUT: Final Recipe Text]", parsed := Option.none }

/-- The mock client (src lines 52-55 wrapping `MockModels`). -/
def mockClient : Client :=
  fun _contents hasSchema => .ok (mockGenerateContent hasSchema)

/-- `ClientInitError`: provider credential present but rejected at client
construction (the exception caught at src lines 70-73). -/
structure ClientInitError where
  message : String

/-- The client selected at module init together with the model name
(src lines 63-77): a present credential tries the live constructor and
falls back to the mock on failure; an absent credential selects the mock.
`initLive` stands for the external `genai.Client` constructor. -/
inductive ClientChoice where
  | live
  | mock
deriving DecidableEq, Repr

/-- Client initialization (src lines 63-77). Total: no `ClientInitError`
escapes; a rejection is consumed by the `except` arm. -/
def initClient (apiKey : Option String)
    (initLive : String → Except ClientInitError Unit) : ClientChoice × String :=
  match apiKey with
  | some key =>
    match initLive key with
    | .ok _ => (.live, "gemini-2.5-flash")
    | .error _ => (.mock, "MOCK_MODEL")
  | Option.none => (.mock, "MOCK_MODEL")

/-! ## Orchestrator: converting stage and workflow -/

/-- Observable activation events: one per agent call (the `--- n. ... ---`
banners around each `run_agent` call) and one per `unit_converter_tool`
call (its `TOOL ACTIVATED` line, printed before the unit is lower-cased). -/
inductive Event where
  | plannerInvoked
  | toolInvoked (amount : ℚ) (unit : PyVal)
  | stylistInvoked

/-- A recorded conversion (spec §3 `ConversionOutcome`): the data the loop
body at src line 146 interpolates into one `conversion_results` entry. -/
structure ConvOutcome where
  originalAmount : PyVal
  originalUnit : PyVal
  convertedAmount : ℚ
  targetUnit : PyVal

/-- One iteration of the CONVERTING loop (src lines 143-146) on one
`conversion_list` entry: the three `in` membership tests (short-circuit
`and`), then `float(conv['amount'])`, then the tool call on `conv['unit']`
(the tool activates before `unit.lower()` can raise on a non-string), then
the `to_unit` lookup in the recorded f-string. Returns the tool events
emitted and either a Python error, no outcome (entry skipped), or the
recorded outcome. -/
def processEntry (conv : PyVal) : List Event × Except PyError (Option ConvOutcome) :=
  match pyContains conv "amount" with
  | .error e => ([], .error e)
  | .ok false => ([], .ok Option.none)
  | .ok true =>
    match pyContains conv "unit" with
    | .error e => ([], .error e)
    | .ok false => ([], .ok Option.none)
    | .ok true =>
      match pyContains conv "to_unit" with
      | .error e => ([], .error e)
      | .ok false => ([], .ok Option.none)
      | .ok true =>
        match pyGetItem conv "amount" with
        | .error e => ([], .error e)
        | .ok amountV =>
          match pyFloat amountV with
          | .error e => ([], .error e)
          | .ok amt =>
            match pyGetItem conv "unit" with
            | .error e => ([], .error e)
            | .ok unitV =>
              match unitV with
              | .str u =>
                match pyGetItem conv "to_unit" with
                | .error e => ([Event.toolInvoked amt unitV], .error e)
                | .ok toV =>
                  ([Event.toolInvoked amt unitV],
                   .ok (some { originalAmount := amountV, originalUnit := unitV,
                               convertedAmount := unit_converter_tool amt u,
                               targetUnit := toV }))
              | _ => ([Event.toolInvoked amt unitV], .error .attributeError)

/-- The whole CONVERTING stage (src lines 139-146): fold `processEntry`
over `conversion_list`, collecting outcomes in order; a raised error
aborts the loop (and the run). -/
def convertingStage (lst : List PyVal) : List Event × Except PyError (List ConvOutcome) :=
  match lst with
  | [] => ([], .ok [])
  | c :: rest =>
    let (evs, r) := processEntry c
    match r with
    | .error e => (evs, .error e)
    | .ok Option.none =>
      let (evs', r') := convertingStage rest
      (evs ++ evs', r')
    | .ok (some o) =>
      let (evs', r') := convertingStage rest
      (evs ++ evs',
       match r' with
       | .error e => .error e
       | .ok os => .ok (o :: os))

/-- Python float repr of the rationals this pipeline produces (integral
values print with a trailing `.0`). -/
def qStr (q : ℚ) : String :=
  if q.den = 1 then toString q.num ++ ".0" else toString q

/-- The `conversion_results` entry recorded at src line 146. -/
def renderOutcome (o : ConvOutcome) : String :=
  "Original: " ++ pyStr o.originalAmount ++ " " ++ pyStr o.originalUnit ++
  ". Standardized: " ++ qStr o.convertedAmount ++ " " ++ pyStr o.targetUnit ++ "."

/-- `json.dumps` rendering of one dumped `Substitution` (src line 151); the
exact whitespace of the dump is not load-bearing for any claim. -/
def renderSub (s : Substitution) : String :=
  "\x7b\"original_ingredient\": \"" ++ s.original_ingredient ++
  "\", \"substitute\": \"" ++ s.substitute ++
  "\", \"reason\": \"" ++ s.reason ++ "\"\x7d"

/-- The serialized substitution memory block (src line 151). -/
def substitutionMapStr (subs : List Substitution) : String :=
  "[" ++ String.intercalate ", " (subs.map renderSub) ++ "]"

/-- `CONCEPTUAL_MODEL_NAME` (src line 60). -/
def CONCEPTUAL_MODEL_NAME : String := "AI_Reasoning_Engine_Flash"

/-- The Planner system prompt (src line 132). -/
def plannerSystemPrompt : String :=
  "You are the expert Recipe Planner, powered by the " ++ CONCEPTUAL_MODEL_NAME ++
  ". Your sole job is to identify substitutions to match the target style and output the result in the required JSON schema."

/-- The Planner user prompt (src lines 123-127). -/
def plannerPrompt (original_recipe target_style : String) : String :=
  "\n    ORIGINAL RECIPE: \"" ++ original_recipe ++ "\"\n    TARGET TRANSFORMATION: \"" ++
  target_style ++
  "\"\n    Analyze the recipe and generate a comprehensive Substitution Map and a list of necessary Unit Conversions.\n    "

/-- The Stylist system prompt (src line 165). -/
def stylistSystemPrompt (target_style : String) : String :=
  "You are the expert Technical Recipe Stylist, powered by the " ++ CONCEPTUAL_MODEL_NAME ++
  ". Your job is to take the provided context and rewrite the final, well-formatted recipe in the style of '" ++
  target_style ++ "' cuisine."

/-- The Stylist user prompt (src lines 154-160). -/
def stylistPrompt (original_recipe subsStr convStr target_style : String) : String :=
  "\n    ORIGINAL RECIPE: " ++ original_recipe ++
  "\n    SUBSTITUTION MAP (CRITICAL MEMORY): " ++ subsStr ++
  "\n    CONVERSION NOTES: " ++ convStr ++
  "\n\n    Your task is to rewrite the ORIGINAL RECIPE entirely, applying all substitutions and conversions. Rewrite the instructions to sound authentic for the '" ++
  target_style ++ "' style.\n    "

/-- The single contents text `run_agent` sends (src lines 103-105). -/
def fullContents (agent_name system_prompt prompt : String) : String :=
  "SYSTEM ROLE (" ++ agent_name ++ "): " ++ system_prompt ++ "\n\nUSER PROMPT:\n" ++ prompt

/-- `run_agent` (src lines 95-113): build the contents envelope, call the
client with the schema flag, and hand back the response (the caller takes
`.parsed` or `.text` according to the flag it passed, mirroring
`response.parsed if output_schema else response.text`). -/
def run_agent (client : Client) (agent_name system_prompt prompt : String)
    (hasSchema : Bool) : Except AgentErr Response :=
  client (fullContents agent_name system_prompt prompt) hasSchema

/-- How a workflow run terminates: the DONE banner with the final recipe
draft, or the Python exception that aborted it, tagged by stage.
`failedPlanningNoParse` is the `AttributeError` raised in the CONVERTING
region when the planner response carried no parsed object. -/
inductive WorkflowOutcome where
  | done (finalText : String)
  | failedPlanning (e : AgentErr)
  | failedPlanningNoParse
  | failedConverting (e : PyError)
  | failedStyling (e : AgentErr)

/-- `run_recipe_adapter_workflow` (src lines 119-173): PLANNING (Planner
agent with the `PlanningResult` schema), CONVERTING (the tool loop),
STYLING (Stylist agent, free text), DONE (print the final draft, exposed
here as the result). Any error propagates unchanged and terminates the
run at that stage. The event trace records agent and tool activations in
order. -/
def run_recipe_adapter_workflow (client : Client)
    (original_recipe target_style : String) : WorkflowOutcome × List Event :=
  match run_agent client "Planner_Agent" plannerSystemPrompt
      (plannerPrompt original_recipe target_style) true with
  | .error e => (.failedPlanning e, [.plannerInvoked])
  | .ok resp =>
    match resp.parsed with
    | Option.none => (.failedPlanningNoParse, [.plannerInvoked])
    | some planning_result =>
      let (toolEvs, convRes) := convertingStage planning_result.conversion_list
      match convRes with
      | .error e => (.failedConverting e, .plannerInvoked :: toolEvs)
      | .ok outcomes =>
        let conversion_results_str := String.intercalate "\n" (outcomes.map renderOutcome)
        let substitution_map_str := substitutionMapStr planning_result.substitution_map
        match run_agent client "Stylist_Agent" (stylistSystemPrompt target_style)
            (stylistPrompt original_recipe substitution_map_str conversion_results_str
              target_style) false with
        | .error e => (.failedStyling e, .plannerInvoked :: (toolEvs ++ [.stylistInvoked]))
        | .ok resp2 => (.done resp2.text, .plannerInvoked :: (toolEvs ++ [.stylistInvoked]))

/-! ## Helper definitions and lemmas for the stated properties -/

/-- A conversion-list entry is well-formed for the CONVERTING loop: it is a
mapping, and when it carries all three required keys its `amount` value is
numeric and its `unit` value is a string. -/
def entryOK (v : PyVal) : Bool :=
  match v with
  | .dict l =>
    !((dictLookup l "amount").isSome && (dictLookup l "unit").isSome &&
      (dictLookup l "to_unit").isSome) ||
    ((match dictLookup l "amount" with | some (.num _) => true | _ => false) &&
     (match dictLookup l "unit" with | some (.str _) => true | _ => false))
  | _ => false

theorem processEntry_ok_of_entryOK (v : PyVal) (h : entryOK v = true) :
    ∃ evs r, processEntry v = (evs, Except.ok r) := by
  cases v with
  | dict l =>
    simp only [entryOK] at h
    cases ha : dictLookup l "amount" with
    | none =>
      exact ⟨[], Option.none, by simp [processEntry, pyContains, ha]⟩
    | some av =>
      cases hu : dictLookup l "unit" with
      | none =>
        exact ⟨[], Option.none, by simp [processEntry, pyContains, ha, hu]⟩
      | some uv =>
        cases ht : dictLookup l "to_unit" with
        | none =>
          exact ⟨[], Option.none, by simp [processEntry, pyContains, ha, hu, ht]⟩
        | some tv =>
          rw [ha, hu, ht] at h
          simp only [Option.isSome_some, Bool.and_self, Bool.not_true, Bool.false_or,
            Bool.and_eq_true] at h
          obtain ⟨hnum, hstr⟩ := h
          cases av with
        | num q =>
            cases uv with
            | str u =>
              refine ⟨[Event.toolInvoked q (.str u)],
                some { originalAmount := .num q, originalUnit := .str u,
                       convertedAmount := unit_converter_tool q u, targetUnit := tv }, ?_⟩
              simp [processEntry, pyContains, pyGetItem, ha, hu, ht, pyFloat]
            | none => simp at hstr
            | bool b => simp at hstr
            | num q' => simp at hstr
            | list xs => simp at hstr
            | dict d => simp at hstr
          | none => simp at hnum
          | bool b => simp at hnum
          | str s => simp at hnum
          | list xs => simp at hnum
          | dict d => simp at hnum
  | none => simp [entryOK] at h
  | bool b => simp [entryOK] at h
  | num q => simp [entryOK] at h
  | str s => simp [entryOK] at h
  | list xs => simp [entryOK] at h

/-! ## Claim theorems -/

/-- C1: with the mock client throughout, `run_recipe_adapter_workflow`
terminates in the DONE state for every recipe and style, and the final
text it emits is the Stylist call's free-text output (the mock's
no-schema response), which is non-empty and distinct from the structured
Planner response text. -/
theorem C1_mock_workflow_reaches_done (original_recipe target_style : String) :
    (run_recipe_adapter_workflow mockClient original_recipe target_style).1 =
      WorkflowOutcome.done (mockGenerateContent false).text ∧
    (mockGenerateContent false).text ≠ "" ∧
    (mockGenerateContent false).text ≠ (mockGenerateContent true).text :=
  ⟨rfl, by decide, by decide⟩

/-- C2 counterexample: the CONVERTING stage CAN fail. On a `PlanningResult`
whose single conversion entry has all three keys but a non-numeric
`amount` string, `float(conv['amount'])` raises `ValueError`, aborting the
stage. -/
theorem C2_counterexample_converting_raises :
    (convertingStage (PlanningResult.mk
        [PyVal.dict [("amount", PyVal.str "two"), ("unit", PyVal.str "cups"),
                     ("to_unit", PyVal.str "grams")]] []).conversion_list).2 =
      Except.error PyError.valueError :=
  rfl

/-- C2 (amended): the CONVERTING stage raises no error on any
`PlanningResult` whose conversion entries are mappings that, when they
carry all three required keys, bind `amount` to a number and `unit` to a
string; entries missing keys are skipped without error. -/
theorem C2_converting_no_failure (lst : List PyVal) (h : lst.all entryOK = true) :
    ∃ os, (convertingStage lst).2 = Except.ok os := by
  induction lst with
  | nil => exact ⟨[], rfl⟩
  | cons c rest ih =>
    rw [List.all_cons, Bool.and_eq_true] at h
    obtain ⟨evs, r, hpe⟩ := processEntry_ok_of_entryOK c h.1
    obtain ⟨os, hos⟩ := ih h.2
    rcases hcr : convertingStage rest with ⟨evs', r'⟩
    rw [hcr] at hos
    simp only at hos
    cases r with
    | none =>
      refine ⟨os, ?_⟩
      simp [convertingStage, hpe, hcr, hos]
    | some o =>
      refine ⟨o :: os, ?_⟩
      simp [convertingStage, hpe, hcr, hos]

theorem C2_converting_no_failure_witness :
    ([PyVal.dict [("amount", PyVal.num 2), ("unit", PyVal.str "cups"),
                  ("to_unit", PyVal.str "grams")],
      PyVal.dict [("amount", PyVal.num 1)]].all entryOK = true) ∧
    ∃ os, (convertingStage
        [PyVal.dict [("amount", PyVal.num 2), ("unit", PyVal.str "cups"),
                     ("to_unit", PyVal.str "grams")],
         PyVal.dict [("amount", PyVal.num 1)]]).2 = Except.ok os :=
  ⟨rfl, C2_converting_no_failure _ rfl⟩

/-- C3 counterexample: the `Substitution` schema does not enforce
non-emptiness — validation accepts (and so the system can produce) an
entry whose three fields are all empty strings. -/
theorem C3_counterexample_empty_fields_validate :
    Substitution.validate (PyVal.dict
        [("original_ingredient", PyVal.str ""), ("substitute", PyVal.str ""),
         ("reason", PyVal.str "")]) =
      Except.ok { original_ingredient := "", substitute := "", reason := "" } :=
  rfl

/-- C3 (amended): the schema itself does not enforce the non-emptiness
invariant; the substitution entries the system actually produces in mock
mode (`PlanningResult.mock_data`) do all have non-empty fields. -/
theorem C3_mock_substitutions_nonempty :
    ∀ s ∈ PlanningResult.mock_data.substitution_map,
      s.original_ingredient ≠ "" ∧ s.substitute ≠ "" ∧ s.reason ≠ "" := by
  decide

theorem C3_mock_substitutions_nonempty_witness :
    ({ original_ingredient := "Beef chuck", substitute := "Firm Tofu",
       reason := "Vegetarian protein swap." } : Substitution).original_ingredient ≠ "" ∧
    ({ original_ingredient := "Beef chuck", substitute := "Firm Tofu",
       reason := "Vegetarian protein swap." } : Substitution).substitute ≠ "" ∧
    ({ original_ingredient := "Beef chuck", substitute := "Firm Tofu",
       reason := "Vegetarian protein swap." } : Substitution).reason ≠ "" :=
  C3_mock_substitutions_nonempty _ (by decide)

/-- C4: for every amount and every unit whose lower-cased form is in the
known volumetric set, the tool returns exactly `amount * 120.0`
(deterministically: it is a pure function of its two arguments). -/
theorem C4_known_unit_scales_by_120 (amount : ℚ) (unit : String)
    (h : pyLower unit ∈ ["cups", "cup"]) :
    unit_converter_tool amount unit = amount * 120 := by
  unfold unit_converter_tool
  rw [if_pos h]

theorem C4_known_unit_scales_by_120_witness :
    pyLower "Cups" ∈ ["cups", "cup"] ∧ unit_converter_tool 2 "Cups" = 2 * 120 :=
  ⟨by decide, C4_known_unit_scales_by_120 2 "Cups" (by decide)⟩

/-- C5: for every unit whose lower-cased form is not in the known
volumetric set, the tool is the identity on the amount, for all amounts
including zero and negative ones. -/
theorem C5_unknown_unit_identity (amount : ℚ) (unit : String)
    (h : pyLower unit ∉ ["cups", "cup"]) :
    unit_converter_tool amount unit = amount := by
  unfold unit_converter_tool
  rw [if_neg h]

theorem C5_unknown_unit_identity_witness :
    pyLower "grams" ∉ ["cups", "cup"] ∧ unit_converter_tool (-3) "grams" = -3 :=
  ⟨by decide, C5_unknown_unit_identity (-3) "grams" (by decide)⟩

/-- C6: a conversion entry (a mapping) missing any of the keys `amount`,
`unit`, `to_unit` is skipped by the CONVERTING loop: no tool event is
emitted (the tool is not invoked), no outcome is recorded, and no error is
raised. -/
theorem C6_missing_key_entry_skipped (l : List (String × PyVal))
    (h : (dictLookup l "amount").isSome = false ∨ (dictLookup l "unit").isSome = false ∨
         (dictLookup l "to_unit").isSome = false) :
    processEntry (.dict l) = ([], Except.ok Option.none) := by
  cases ha : (dictLookup l "amount").isSome with
  | false => simp [processEntry, pyContains, ha]
  | true =>
    cases hu : (dictLookup l "unit").isSome with
    | false => simp [processEntry, pyContains, ha, hu]
    | true =>
      cases ht : (dictLookup l "to_unit").isSome with
      | false => simp [processEntry, pyContains, ha, hu, ht]
      | true => simp [ha, hu, ht] at h

theorem C6_missing_key_entry_skipped_witness :
    ((dictLookup [("amount", PyVal.num 1)] "amount").isSome = false ∨
     (dictLookup [("amount", PyVal.num 1)] "unit").isSome = false ∨
     (dictLookup [("amount", PyVal.num 1)] "to_unit").isSome = false) ∧
    processEntry (.dict [("amount", PyVal.num 1)]) = ([], Except.ok Option.none) :=
  ⟨Or.inr (Or.inl rfl), C6_missing_key_entry_skipped _ (Or.inr (Or.inl rfl))⟩

/-- C7: for every request with a schema, the mock client returns the fixed
structured plan, and that value round-trips through the schema:
validating its serialization yields the value back. -/
theorem C7_mock_schema_roundtrip (contents : String) :
    mockClient contents true =
      Except.ok { text := "[MOCK OUTPUT: Structured Plan Generated]",
                  parsed := some PlanningResult.mock_data } ∧
    PlanningResult.validate (PlanningResult.serialize PlanningResult.mock_data) =
      Except.ok PlanningResult.mock_data :=
  ⟨rfl, rfl⟩

/-- C8: a present but rejected credential is recovered locally — client
initialization selects the mock variant (no `ClientInitError` escapes:
`initClient` is total), and a subsequent run with the mock client still
reaches DONE. -/
theorem C8_init_failure_recovered_by_mock (key : String)
    (initLive : String → Except ClientInitError Unit) (e : ClientInitError)
    (h : initLive key = Except.error e) :
    initClient (some key) initLive = (ClientChoice.mock, "MOCK_MODEL") ∧
    ∀ recipe style, (run_recipe_adapter_workflow mockClient recipe style).1 =
      WorkflowOutcome.done (mockGenerateContent false).text := by
  constructor
  · simp [initClient, h]
  · intro recipe style
    rfl

theorem C8_init_failure_recovered_by_mock_witness :
    ((fun _ : String => (Except.error ⟨"rejected"⟩ : Except ClientInitError Unit)) "k" =
      Except.error ⟨"rejected"⟩) ∧
    initClient (some "k") (fun _ => Except.error ⟨"rejected"⟩) =
      (ClientChoice.mock, "MOCK_MODEL") ∧
    (run_recipe_adapter_workflow mockClient "2 cups sour cream" "Vegan").1 =
      WorkflowOutcome.done (mockGenerateContent false).text :=
  ⟨rfl,
   (C8_init_failure_recovered_by_mock "k" (fun _ => Except.error ⟨"rejected"⟩)
     ⟨"rejected"⟩ rfl).1,
   (C8_init_failure_recovered_by_mock "k" (fun _ => Except.error ⟨"rejected"⟩)
     ⟨"rejected"⟩ rfl).2 "2 cups sour cream" "Vegan"⟩

/-- C9: if the PLANNING call fails (schema validation or provider error),
the run terminates with that error immediately: the event trace is exactly
the planner activation — no tool invocation and no stylist invocation ever
happens in that run. -/
theorem C9_planning_failure_aborts_run (client : Client)
    (recipe style : String) (e : AgentErr)
    (h : client (fullContents "Planner_Agent" plannerSystemPrompt
        (plannerPrompt recipe style)) true = Except.error e) :
    run_recipe_adapter_workflow client recipe style =
      (WorkflowOutcome.failedPlanning e, [Event.plannerInvoked]) := by
  unfold run_recipe_adapter_workflow run_agent
  rw [h]

theorem C9_planning_failure_aborts_run_witness :
    ((fun _ : String => fun _ : Bool =>
        (Except.error AgentErr.schemaValidationError : Except AgentErr Response))
      (fullContents "Planner_Agent" plannerSystemPrompt (plannerPrompt "r" "s")) true =
      Except.error AgentErr.schemaValidationError) ∧
    run_recipe_adapter_workflow
        (fun _ _ => Except.error AgentErr.schemaValidationError) "r" "s" =
      (WorkflowOutcome.failedPlanning AgentErr.schemaValidationError,
       [Event.plannerInvoked]) :=
  ⟨rfl, C9_planning_failure_aborts_run _ "r" "s" _ rfl⟩

/-- C10: the converted amount computed for a conversion entry depends only
on its `amount` and `unit` values, never on its `to_unit` value: two
mapping entries agreeing on `amount` and `unit` (and on whether `to_unit`
is present) produce identical converted amounts — `to_unit` only labels
the recorded outcome. -/
theorem C10_converted_amount_ignores_to_unit (l1 l2 : List (String × PyVal))
    (hA : dictLookup l1 "amount" = dictLookup l2 "amount")
    (hU : dictLookup l1 "unit" = dictLookup l2 "unit")
    (hT : (dictLookup l1 "to_unit").isSome = (dictLookup l2 "to_unit").isSome) :
    Except.map (Option.map ConvOutcome.convertedAmount) (processEntry (.dict l1)).2 =
    Except.map (Option.map ConvOutcome.convertedAmount) (processEntry (.dict l2)).2 := by
  cases ha : dictLookup l1 "amount" with
  | none =>
    rw [ha] at hA
    simp [processEntry, pyContains, ha, ← hA]
  | some av =>
    rw [ha] at hA
    cases hu : dictLookup l1 "unit" with
    | none =>
      rw [hu] at hU
      simp [processEntry, pyContains, pyGetItem, ha, hu, ← hA, ← hU]
    | some uv =>
      rw [hu] at hU
      cases ht1 : dictLookup l1 "to_unit" with
      | none =>
        rw [ht1] at hT
        cases ht2 : dictLookup l2 "to_unit" with
        | none => simp [processEntry, pyContains, pyGetItem, ha, hu, ht1, ht2, ← hA, ← hU]
        | some tv2 => rw [ht2] at hT; simp at hT
      | some tv1 =>
        rw [ht1] at hT
        cases ht2 : dictLookup l2 "to_unit" with
        | none => rw [ht2] at hT; simp at hT
        | some tv2 =>
          simp only [processEntry, pyContains, pyGetItem, ha, hu, ht1, ht2, ← hA, ← hU]
          cases pyFloat av with
          | error e => simp
          | ok amt => cases uv <;> rfl

theorem C10_converted_amount_ignores_to_unit_witness :
    (dictLookup [("amount", PyVal.num 2), ("unit", PyVal.str "cups"),
        ("to_unit", PyVal.str "grams")] "amount" =
      dictLookup [("amount", PyVal.num 2), ("unit", PyVal.str "cups"),
        ("to_unit", PyVal.str "ounces")] "amount") ∧
    (dictLookup [("amount", PyVal.num 2), ("unit", PyVal.str "cups"),
        ("to_unit", PyVal.str "grams")] "unit" =
      dictLookup [("amount", PyVal.num 2), ("unit", PyVal.str "cups"),
        ("to_unit", PyVal.str "ounces")] "unit") ∧
    Except.map (Option.map ConvOutcome.convertedAmount)
        (processEntry (.dict [("amount", PyVal.num 2), ("unit", PyVal.str "cups"),
          ("to_unit", PyVal.str "grams")])).2 =
      Except.map (Option.map ConvOutcome.convertedAmount)
        (processEntry (.dict [("amount", PyVal.num 2), ("unit", PyVal.str "cups"),
          ("to_unit", PyVal.str "ounces")])).2 :=
  ⟨rfl, rfl, C10_converted_amount_ignores_to_unit _ _ rfl rfl rfl⟩
